import Mathlib

/-!
# Query model of the ledger storage contract

A shallow embedding of `pkg/ledger/storage.go`: the four query builders
(`TransactionsQuery`, `AccountsQuery`, `BalancesQuery`, `LogsQuery`), their
`With*` setters, and the `BalanceOperator` enumeration with its validating
constructor.

Conventions of the embedding:

* Go's `uint` and `uint64` fields are `Nat`. The setters only store their
  argument, no arithmetic is performed on it, so no wrap-around can occur.
* Go's `string` is `String`; the only operation the source performs on
  strings is comparison with ASCII constants.
* `map[string]string` is `Option (List (String × String))`, where `none` is
  the nil map and `some []` the empty, non-nil map.
* Every setter has a pointer receiver, mutates the pointee and returns the
  same pointer. It is embedded as a function from the value before the call to
  the value after the call, which is also the value the returned pointer
  refers to.
-/

namespace Ledger

/-! ## `time.Time` -/

/-- Go's `time.Time`, as much of it as `storage.go` observes: the seconds and
nanoseconds elapsed since January 1, year 1, 00:00:00 UTC, and the location the
instant is shown in. The zero value of the Go type is `⟨0, 0, none⟩`. -/
structure Time where
  sec : Int
  nsec : Nat
  loc : Option String
  deriving DecidableEq, Repr

/-- The zero value of `time.Time`. -/
def Time.zero : Time := ⟨0, 0, none⟩

instance : Inhabited Time := ⟨Time.zero⟩

/-- Go's `func (t Time) IsZero() bool`: `t.sec() == 0 && t.nsec() == 0`. -/
def Time.IsZero (t : Time) : Bool :=
  t.sec == 0 && t.nsec == 0

/-- Seconds between January 1, year 1 and January 1, 1970 (the constant
`unixToInternal` of Go's `time` package). -/
def unixToInternal : Int := 62135596800

/-- Go's `time.Unix(sec, nsec)` for `0 ≤ nsec < 1e9`, shown in `time.Local`. -/
def Time.Unix (sec : Int) (nsec : Nat) : Time :=
  ⟨sec + unixToInternal, nsec, some "Local"⟩

/-! ## Metadata -/

/-- Go's `map[string]string`: `none` is the nil map. -/
abbrev Metadata := Option (List (String × String))

/-! ## Page size -/

/-- The constant `QueryDefaultPageSize = 15`. -/
def QueryDefaultPageSize : Nat := 15

/-! ## `BalanceOperator` -/

/-- Go's `type BalanceOperator string`. -/
structure BalanceOperator where
  str : String
  deriving DecidableEq, Repr

instance : Inhabited BalanceOperator := ⟨⟨""⟩⟩

def BalanceOperatorE : BalanceOperator := ⟨"e"⟩
def BalanceOperatorGt : BalanceOperator := ⟨"gt"⟩
def BalanceOperatorGte : BalanceOperator := ⟨"gte"⟩
def BalanceOperatorLt : BalanceOperator := ⟨"lt"⟩
def BalanceOperatorLte : BalanceOperator := ⟨"lte"⟩
def BalanceOperatorNe : BalanceOperator := ⟨"ne"⟩

def DefaultBalanceOperator : BalanceOperator := BalanceOperatorGte

/-- The method `func (b BalanceOperator) IsValid() bool`: the `switch` over the
six constants, in the order of the source. -/
def BalanceOperator.IsValid (b : BalanceOperator) : Bool :=
  if b = BalanceOperatorE ∨ b = BalanceOperatorGt ∨ b = BalanceOperatorGte ∨
      b = BalanceOperatorLt ∨ b = BalanceOperatorNe ∨ b = BalanceOperatorLte then
    true
  else
    false

/-- The function `func NewBalanceOperator(s string) (BalanceOperator, bool)`. -/
def NewBalanceOperator (s : String) : BalanceOperator × Bool :=
  if !(BalanceOperator.mk s).IsValid then
    (⟨""⟩, false)
  else
    (BalanceOperator.mk s, true)

/-! ## `TransactionsQuery` -/

structure TransactionsQueryFilters where
  Reference : String
  Destination : String
  Source : String
  Account : String
  EndTime : Time
  StartTime : Time
  Metadata : Metadata
  deriving DecidableEq, Repr

/-- The zero value of `TransactionsQueryFilters`. -/
def TransactionsQueryFilters.zero : TransactionsQueryFilters :=
  ⟨"", "", "", "", Time.zero, Time.zero, none⟩

structure TransactionsQuery where
  PageSize : Nat
  AfterTxID : Nat
  Filters : TransactionsQueryFilters
  deriving DecidableEq, Repr

def NewTransactionsQuery : TransactionsQuery :=
  { PageSize := QueryDefaultPageSize, AfterTxID := 0, Filters := TransactionsQueryFilters.zero }

namespace TransactionsQuery

def WithPageSize (a : TransactionsQuery) (pageSize : Nat) : TransactionsQuery :=
  if pageSize ≠ 0 then { a with PageSize := pageSize } else a

def WithAfterTxID (a : TransactionsQuery) (after : Nat) : TransactionsQuery :=
  { a with AfterTxID := after }

def WithStartTimeFilter (a : TransactionsQuery) (start : Time) : TransactionsQuery :=
  if !start.IsZero then { a with Filters := { a.Filters with StartTime := start } } else a

def WithEndTimeFilter (a : TransactionsQuery) (end_ : Time) : TransactionsQuery :=
  if !end_.IsZero then { a with Filters := { a.Filters with EndTime := end_ } } else a

def WithAccountFilter (a : TransactionsQuery) (account : String) : TransactionsQuery :=
  { a with Filters := { a.Filters with Account := account } }

def WithDestinationFilter (a : TransactionsQuery) (dest : String) : TransactionsQuery :=
  { a with Filters := { a.Filters with Destination := dest } }

def WithReferenceFilter (a : TransactionsQuery) (ref : String) : TransactionsQuery :=
  { a with Filters := { a.Filters with Reference := ref } }

def WithSourceFilter (a : TransactionsQuery) (source : String) : TransactionsQuery :=
  { a with Filters := { a.Filters with Source := source } }

def WithMetadataFilter (a : TransactionsQuery) (metadata : Metadata) : TransactionsQuery :=
  { a with Filters := { a.Filters with Metadata := metadata } }

end TransactionsQuery

/-! ## `AccountsQuery` -/

structure AccountsQueryFilters where
  Address : String
  Balance : String
  BalanceOperator : BalanceOperator
  Metadata : Metadata
  deriving DecidableEq, Repr

/-- The zero value of `AccountsQueryFilters`. -/
def AccountsQueryFilters.zero : AccountsQueryFilters :=
  ⟨"", "", ⟨""⟩, none⟩

structure AccountsQuery where
  PageSize : Nat
  Offset : Nat
  AfterAddress : String
  Filters : AccountsQueryFilters
  deriving DecidableEq, Repr

def NewAccountsQuery : AccountsQuery :=
  { PageSize := QueryDefaultPageSize, Offset := 0, AfterAddress := "",
    Filters := AccountsQueryFilters.zero }

namespace AccountsQuery

def WithPageSize (a : AccountsQuery) (pageSize : Nat) : AccountsQuery :=
  if pageSize ≠ 0 then { a with PageSize := pageSize } else a

def WithOffset (a : AccountsQuery) (offset : Nat) : AccountsQuery :=
  { a with Offset := offset }

def WithAfterAddress (a : AccountsQuery) (after : String) : AccountsQuery :=
  { a with AfterAddress := after }

def WithAddressFilter (a : AccountsQuery) (address : String) : AccountsQuery :=
  { a with Filters := { a.Filters with Address := address } }

def WithBalanceFilter (a : AccountsQuery) (balance : String) : AccountsQuery :=
  { a with Filters := { a.Filters with Balance := balance } }

def WithBalanceOperatorFilter (a : AccountsQuery) (balanceOperator : BalanceOperator) :
    AccountsQuery :=
  { a with Filters := { a.Filters with BalanceOperator := balanceOperator } }

def WithMetadataFilter (a : AccountsQuery) (metadata : Metadata) : AccountsQuery :=
  { a with Filters := { a.Filters with Metadata := metadata } }

end AccountsQuery

/-! ## `BalancesQuery` -/

structure BalancesQueryFilters where
  AddressRegexp : String
  deriving DecidableEq, Repr

structure BalancesQuery where
  PageSize : Nat
  Offset : Nat
  AfterAddress : String
  Filters : BalancesQueryFilters
  deriving DecidableEq, Repr

def NewBalancesQuery : BalancesQuery :=
  { PageSize := QueryDefaultPageSize, Offset := 0, AfterAddress := "", Filters := ⟨""⟩ }

namespace BalancesQuery

def WithAfterAddress (b : BalancesQuery) (after : String) : BalancesQuery :=
  { b with AfterAddress := after }

def WithOffset (b : BalancesQuery) (offset : Nat) : BalancesQuery :=
  { b with Offset := offset }

def WithAddressFilter (b : BalancesQuery) (address : String) : BalancesQuery :=
  { b with Filters := { b.Filters with AddressRegexp := address } }

def WithPageSize (b : BalancesQuery) (pageSize : Nat) : BalancesQuery :=
  { b with PageSize := pageSize }

end BalancesQuery

/-! ## `LogsQuery` -/

structure LogsQueryFilters where
  EndTime : Time
  StartTime : Time
  deriving DecidableEq, Repr

structure LogsQuery where
  AfterID : Nat
  PageSize : Nat
  Filters : LogsQueryFilters
  deriving DecidableEq, Repr

def NewLogsQuery : LogsQuery :=
  { AfterID := 0, PageSize := QueryDefaultPageSize, Filters := ⟨Time.zero, Time.zero⟩ }

namespace LogsQuery

def WithAfterID (l : LogsQuery) (after : Nat) : LogsQuery :=
  { l with AfterID := after }

def WithPageSize (l : LogsQuery) (pageSize : Nat) : LogsQuery :=
  if pageSize ≠ 0 then { l with PageSize := pageSize } else l

def WithStartTimeFilter (l : LogsQuery) (start : Time) : LogsQuery :=
  if !start.IsZero then { l with Filters := { l.Filters with StartTime := start } } else l

def WithEndTimeFilter (l : LogsQuery) (end_ : Time) : LogsQuery :=
  if !end_.IsZero then { l with Filters := { l.Filters with EndTime := end_ } } else l

end LogsQuery

/-! ## Setter calls

For each query kind: the fields of the struct, a call of one of its `With*`
methods together with its argument, the effect of such a call, the field the
method assigns to, and the query a chain of calls builds from the constructor.
-/

namespace TransactionsQuery

/-- The fields of `TransactionsQuery`, those of `Filters` one by one. -/
inductive Field where
  | PageSize | AfterTxID | Reference | Destination | Source | Account | EndTime | StartTime
  | Metadata
  deriving DecidableEq, Repr

/-- Equality of two queries at one field. -/
def Field.sameAt (f : Field) (q q' : TransactionsQuery) : Prop :=
  match f with
  | .PageSize => q.PageSize = q'.PageSize
  | .AfterTxID => q.AfterTxID = q'.AfterTxID
  | .Reference => q.Filters.Reference = q'.Filters.Reference
  | .Destination => q.Filters.Destination = q'.Filters.Destination
  | .Source => q.Filters.Source = q'.Filters.Source
  | .Account => q.Filters.Account = q'.Filters.Account
  | .EndTime => q.Filters.EndTime = q'.Filters.EndTime
  | .StartTime => q.Filters.StartTime = q'.Filters.StartTime
  | .Metadata => q.Filters.Metadata = q'.Filters.Metadata

/-- A call of one of the nine `With*` methods of `*TransactionsQuery`. -/
inductive Setter where
  | WithPageSize (pageSize : Nat)
  | WithAfterTxID (after : Nat)
  | WithStartTimeFilter (start : Time)
  | WithEndTimeFilter (end_ : Time)
  | WithAccountFilter (account : String)
  | WithDestinationFilter (dest : String)
  | WithReferenceFilter (ref : String)
  | WithSourceFilter (source : String)
  | WithMetadataFilter (metadata : Ledger.Metadata)
  deriving DecidableEq, Repr

/-- The query after the call. -/
def Setter.apply (s : Setter) (q : TransactionsQuery) : TransactionsQuery :=
  match s with
  | .WithPageSize pageSize => q.WithPageSize pageSize
  | .WithAfterTxID after => q.WithAfterTxID after
  | .WithStartTimeFilter start => q.WithStartTimeFilter start
  | .WithEndTimeFilter end_ => q.WithEndTimeFilter end_
  | .WithAccountFilter account => q.WithAccountFilter account
  | .WithDestinationFilter dest => q.WithDestinationFilter dest
  | .WithReferenceFilter ref => q.WithReferenceFilter ref
  | .WithSourceFilter source => q.WithSourceFilter source
  | .WithMetadataFilter metadata => q.WithMetadataFilter metadata

/-- The field the method's body assigns to. -/
def Setter.target : Setter → Field
  | .WithPageSize _ => .PageSize
  | .WithAfterTxID _ => .AfterTxID
  | .WithStartTimeFilter _ => .StartTime
  | .WithEndTimeFilter _ => .EndTime
  | .WithAccountFilter _ => .Account
  | .WithDestinationFilter _ => .Destination
  | .WithReferenceFilter _ => .Reference
  | .WithSourceFilter _ => .Source
  | .WithMetadataFilter _ => .Metadata

/-- The query `NewTransactionsQuery().W1(..).W2(..)...` for the chain of calls
`calls`, first call first. -/
def build (calls : List Setter) : TransactionsQuery :=
  calls.foldl (fun q s => s.apply q) NewTransactionsQuery

end TransactionsQuery

namespace AccountsQuery

/-- The fields of `AccountsQuery`, those of `Filters` one by one. -/
inductive Field where
  | PageSize | Offset | AfterAddress | Address | Balance | BalanceOperator | Metadata
  deriving DecidableEq, Repr

/-- Equality of two queries at one field. -/
def Field.sameAt (f : Field) (q q' : AccountsQuery) : Prop :=
  match f with
  | .PageSize => q.PageSize = q'.PageSize
  | .Offset => q.Offset = q'.Offset
  | .AfterAddress => q.AfterAddress = q'.AfterAddress
  | .Address => q.Filters.Address = q'.Filters.Address
  | .Balance => q.Filters.Balance = q'.Filters.Balance
  | .BalanceOperator => q.Filters.BalanceOperator = q'.Filters.BalanceOperator
  | .Metadata => q.Filters.Metadata = q'.Filters.Metadata

/-- A call of one of the seven `With*` methods of `*AccountsQuery`. -/
inductive Setter where
  | WithPageSize (pageSize : Nat)
  | WithOffset (offset : Nat)
  | WithAfterAddress (after : String)
  | WithAddressFilter (address : String)
  | WithBalanceFilter (balance : String)
  | WithBalanceOperatorFilter (balanceOperator : Ledger.BalanceOperator)
  | WithMetadataFilter (metadata : Ledger.Metadata)
  deriving DecidableEq, Repr

/-- The query after the call. -/
def Setter.apply (s : Setter) (q : AccountsQuery) : AccountsQuery :=
  match s with
  | .WithPageSize pageSize => q.WithPageSize pageSize
  | .WithOffset offset => q.WithOffset offset
  | .WithAfterAddress after => q.WithAfterAddress after
  | .WithAddressFilter address => q.WithAddressFilter address
  | .WithBalanceFilter balance => q.WithBalanceFilter balance
  | .WithBalanceOperatorFilter balanceOperator => q.WithBalanceOperatorFilter balanceOperator
  | .WithMetadataFilter metadata => q.WithMetadataFilter metadata

/-- The field the method's body assigns to. -/
def Setter.target : Setter → Field
  | .WithPageSize _ => .PageSize
  | .WithOffset _ => .Offset
  | .WithAfterAddress _ => .AfterAddress
  | .WithAddressFilter _ => .Address
  | .WithBalanceFilter _ => .Balance
  | .WithBalanceOperatorFilter _ => .BalanceOperator
  | .WithMetadataFilter _ => .Metadata

/-- The query `NewAccountsQuery().W1(..).W2(..)...` for the chain of calls
`calls`, first call first. -/
def build (calls : List Setter) : AccountsQuery :=
  calls.foldl (fun q s => s.apply q) NewAccountsQuery

end AccountsQuery

namespace BalancesQuery

/-- The fields of `BalancesQuery`, that of `Filters` included. -/
inductive Field where
  | PageSize | Offset | AfterAddress | AddressRegexp
  deriving DecidableEq, Repr

/-- Equality of two queries at one field. -/
def Field.sameAt (f : Field) (q q' : BalancesQuery) : Prop :=
  match f with
  | .PageSize => q.PageSize = q'.PageSize
  | .Offset => q.Offset = q'.Offset
  | .AfterAddress => q.AfterAddress = q'.AfterAddress
  | .AddressRegexp => q.Filters.AddressRegexp = q'.Filters.AddressRegexp

/-- A call of one of the four `With*` methods of `*BalancesQuery`. -/
inductive Setter where
  | WithAfterAddress (after : String)
  | WithOffset (offset : Nat)
  | WithAddressFilter (address : String)
  | WithPageSize (pageSize : Nat)
  deriving DecidableEq, Repr

/-- The query after the call. -/
def Setter.apply (s : Setter) (q : BalancesQuery) : BalancesQuery :=
  match s with
  | .WithAfterAddress after => q.WithAfterAddress after
  | .WithOffset offset => q.WithOffset offset
  | .WithAddressFilter address => q.WithAddressFilter address
  | .WithPageSize pageSize => q.WithPageSize pageSize

/-- The field the method's body assigns to. -/
def Setter.target : Setter → Field
  | .WithAfterAddress _ => .AfterAddress
  | .WithOffset _ => .Offset
  | .WithAddressFilter _ => .AddressRegexp
  | .WithPageSize _ => .PageSize

/-- The query `NewBalancesQuery().W1(..).W2(..)...` for the chain of calls
`calls`, first call first. -/
def build (calls : List Setter) : BalancesQuery :=
  calls.foldl (fun q s => s.apply q) NewBalancesQuery

end BalancesQuery

namespace LogsQuery

/-- The fields of `LogsQuery`, those of `Filters` one by one. -/
inductive Field where
  | AfterID | PageSize | EndTime | StartTime
  deriving DecidableEq, Repr

/-- Equality of two queries at one field. -/
def Field.sameAt (f : Field) (q q' : LogsQuery) : Prop :=
  match f with
  | .AfterID => q.AfterID = q'.AfterID
  | .PageSize => q.PageSize = q'.PageSize
  | .EndTime => q.Filters.EndTime = q'.Filters.EndTime
  | .StartTime => q.Filters.StartTime = q'.Filters.StartTime

/-- A call of one of the four `With*` methods of `*LogsQuery`. -/
inductive Setter where
  | WithAfterID (after : Nat)
  | WithPageSize (pageSize : Nat)
  | WithStartTimeFilter (start : Time)
  | WithEndTimeFilter (end_ : Time)
  deriving DecidableEq, Repr

/-- The query after the call. -/
def Setter.apply (s : Setter) (q : LogsQuery) : LogsQuery :=
  match s with
  | .WithAfterID after => q.WithAfterID after
  | .WithPageSize pageSize => q.WithPageSize pageSize
  | .WithStartTimeFilter start => q.WithStartTimeFilter start
  | .WithEndTimeFilter end_ => q.WithEndTimeFilter end_

/-- The field the method's body assigns to. -/
def Setter.target : Setter → Field
  | .WithAfterID _ => .AfterID
  | .WithPageSize _ => .PageSize
  | .WithStartTimeFilter _ => .StartTime
  | .WithEndTimeFilter _ => .EndTime

/-- The query `NewLogsQuery().W1(..).W2(..)...` for the chain of calls
`calls`, first call first. -/
def build (calls : List Setter) : LogsQuery :=
  calls.foldl (fun q s => s.apply q) NewLogsQuery

end LogsQuery

/-! ## The balance operator -/

/-- C1. For every string `s`, `NewBalanceOperator s` succeeds exactly when `s`
is one of "e", "gt", "gte", "lt", "lte", "ne", and on success the returned
operator read back as a string is `s`. -/
theorem NewBalanceOperator_succeeds_iff (s : String) :
    ((NewBalanceOperator s).2 = true ↔ s ∈ ["e", "gt", "gte", "lt", "lte", "ne"]) ∧
    ((NewBalanceOperator s).2 = true → (NewBalanceOperator s).1.str = s) := by
  unfold NewBalanceOperator BalanceOperator.IsValid BalanceOperatorE BalanceOperatorGt
    BalanceOperatorGte BalanceOperatorLt BalanceOperatorNe BalanceOperatorLte
  simp only [BalanceOperator.mk.injEq]
  by_cases h : s = "e" ∨ s = "gt" ∨ s = "gte" ∨ s = "lt" ∨ s = "ne" ∨ s = "lte"
  · simp only [if_pos h, Bool.not_true, Bool.false_eq_true, if_false, List.mem_cons,
      List.mem_singleton, List.not_mem_nil, or_false, true_iff, implies_true, and_true]
    tauto
  · simp only [if_neg h, Bool.not_false, if_true, Bool.false_eq_true, List.mem_cons,
      List.mem_singleton, List.not_mem_nil, or_false, false_iff, false_implies, and_true]
    tauto

/-- C8. The default operator is "gte", it belongs to the enumeration, and
`NewBalanceOperator "gte"` returns it together with the success flag. -/
theorem DefaultBalanceOperator_is_gte_and_valid :
    DefaultBalanceOperator = BalanceOperator.mk "gte" ∧
    DefaultBalanceOperator.IsValid = true ∧
    NewBalanceOperator "gte" = (DefaultBalanceOperator, true) := by
  refine ⟨rfl, ?_, ?_⟩ <;> decide

/-- C9. For every string `s`, the operator returned by `NewBalanceOperator s`
is valid exactly when the success flag is true; on failure the returned
operator is the empty string, and the empty string is not a valid operator. -/
theorem NewBalanceOperator_valid_iff_ok (s : String) :
    ((NewBalanceOperator s).1.IsValid = true ↔ (NewBalanceOperator s).2 = true) ∧
    ((NewBalanceOperator s).2 = false → (NewBalanceOperator s).1 = BalanceOperator.mk "") ∧
    (BalanceOperator.mk "").IsValid = false := by
  have hempty : (BalanceOperator.mk "").IsValid = false := by decide
  refine ⟨?_, ?_, hempty⟩
  · unfold NewBalanceOperator
    cases h : (BalanceOperator.mk s).IsValid
    · simp [hempty]
    · simp [h]
  · unfold NewBalanceOperator
    cases h : (BalanceOperator.mk s).IsValid <;> simp

/-! ## Page size -/

/-- C2. For `TransactionsQuery`, `AccountsQuery` and `LogsQuery`, and every
query `q` of that kind, `q.WithPageSize 0` has the page size `q` had before the
call. -/
theorem WithPageSize_zero_keeps_PageSize :
    (∀ q : TransactionsQuery, (q.WithPageSize 0).PageSize = q.PageSize) ∧
    (∀ q : AccountsQuery, (q.WithPageSize 0).PageSize = q.PageSize) ∧
    (∀ q : LogsQuery, (q.WithPageSize 0).PageSize = q.PageSize) := by
  refine ⟨?_, ?_, ?_⟩ <;> intro q
  · simp [TransactionsQuery.WithPageSize]
  · simp [AccountsQuery.WithPageSize]
  · simp [LogsQuery.WithPageSize]

/-- C3, at the failing input. `NewBalancesQuery().WithPageSize(0)` has page size 0:
the setter of `BalancesQuery` stores the zero, so the page size is no longer
the 15 it was before the call. -/
theorem BalancesQuery_WithPageSize_zero_overwrites :
    (NewBalancesQuery.WithPageSize 0).PageSize = 0 ∧
    NewBalancesQuery.PageSize = 15 ∧
    (NewBalancesQuery.WithPageSize 0).PageSize ≠ NewBalancesQuery.PageSize := by
  decide

/-- C4. Each of the four constructors returns a query whose page size is
exactly 15, the value of `QueryDefaultPageSize`. -/
theorem New_queries_PageSize_default :
    QueryDefaultPageSize = 15 ∧
    NewTransactionsQuery.PageSize = 15 ∧
    NewAccountsQuery.PageSize = 15 ∧
    NewBalancesQuery.PageSize = 15 ∧
    NewLogsQuery.PageSize = 15 :=
  ⟨rfl, rfl, rfl, rfl, rfl⟩

/-- C5. For each of the four query kinds, every query `q` and every page size
`n > 0`, `q.WithPageSize n` has page size exactly `n`. -/
theorem WithPageSize_pos_sets_PageSize (n : Nat) (hn : 0 < n) :
    (∀ q : TransactionsQuery, (q.WithPageSize n).PageSize = n) ∧
    (∀ q : AccountsQuery, (q.WithPageSize n).PageSize = n) ∧
    (∀ q : BalancesQuery, (q.WithPageSize n).PageSize = n) ∧
    (∀ q : LogsQuery, (q.WithPageSize n).PageSize = n) := by
  have h0 : n ≠ 0 := Nat.pos_iff_ne_zero.mp hn
  refine ⟨?_, ?_, ?_, ?_⟩ <;> intro q
  · simp [TransactionsQuery.WithPageSize, h0]
  · simp [AccountsQuery.WithPageSize, h0]
  · simp [BalancesQuery.WithPageSize]
  · simp [LogsQuery.WithPageSize, h0]

/-- Witness of C5 at page size 50, on the freshly constructed queries. -/
theorem WithPageSize_pos_sets_PageSize_witness :
    0 < 50 ∧
    (NewTransactionsQuery.WithPageSize 50).PageSize = 50 ∧
    (NewAccountsQuery.WithPageSize 50).PageSize = 50 ∧
    (NewBalancesQuery.WithPageSize 50).PageSize = 50 ∧
    (NewLogsQuery.WithPageSize 50).PageSize = 50 :=
  have h := WithPageSize_pos_sets_PageSize 50 (by decide)
  ⟨by decide, h.1 _, h.2.1 _, h.2.2.1 _, h.2.2.2 _⟩

/-! ## Time-range filters -/

/-- C6. For `TransactionsQuery` and `LogsQuery`, every query `q` and every
timestamp `t` with `t.IsZero`, both `q.WithStartTimeFilter t` and
`q.WithEndTimeFilter t` leave `Filters.StartTime` and `Filters.EndTime` as they
were before the call. -/
theorem WithTimeFilter_zero_keeps_range (t : Time) (ht : t.IsZero = true) :
    (∀ q : TransactionsQuery,
      (q.WithStartTimeFilter t).Filters.StartTime = q.Filters.StartTime ∧
      (q.WithStartTimeFilter t).Filters.EndTime = q.Filters.EndTime ∧
      (q.WithEndTimeFilter t).Filters.StartTime = q.Filters.StartTime ∧
      (q.WithEndTimeFilter t).Filters.EndTime = q.Filters.EndTime) ∧
    (∀ q : LogsQuery,
      (q.WithStartTimeFilter t).Filters.StartTime = q.Filters.StartTime ∧
      (q.WithStartTimeFilter t).Filters.EndTime = q.Filters.EndTime ∧
      (q.WithEndTimeFilter t).Filters.StartTime = q.Filters.StartTime ∧
      (q.WithEndTimeFilter t).Filters.EndTime = q.Filters.EndTime) := by
  refine ⟨?_, ?_⟩ <;> intro q
  · simp [TransactionsQuery.WithStartTimeFilter, TransactionsQuery.WithEndTimeFilter, ht]
  · simp [LogsQuery.WithStartTimeFilter, LogsQuery.WithEndTimeFilter, ht]

/-- A transactions query whose time range was set to the non-zero instants
`time.Unix(100, 0)` and `time.Unix(200, 0)`. -/
def rangedTransactionsQuery : TransactionsQuery :=
  (NewTransactionsQuery.WithStartTimeFilter (Time.Unix 100 0)).WithEndTimeFilter (Time.Unix 200 0)

/-- A logs query whose time range was set to the non-zero instants
`time.Unix(100, 0)` and `time.Unix(200, 0)`. -/
def rangedLogsQuery : LogsQuery :=
  (NewLogsQuery.WithStartTimeFilter (Time.Unix 100 0)).WithEndTimeFilter (Time.Unix 200 0)

/-- Witness of C6: the zero instant shown in UTC, applied to queries whose
range was previously set to non-zero instants. -/
theorem WithTimeFilter_zero_keeps_range_witness :
    (Time.mk 0 0 (some "UTC")).IsZero = true ∧
    ((rangedTransactionsQuery.WithStartTimeFilter (Time.mk 0 0 (some "UTC"))).Filters.StartTime
        = Time.Unix 100 0 ∧
      (rangedTransactionsQuery.WithEndTimeFilter (Time.mk 0 0 (some "UTC"))).Filters.EndTime
        = Time.Unix 200 0) ∧
    ((rangedLogsQuery.WithStartTimeFilter (Time.mk 0 0 (some "UTC"))).Filters.StartTime
        = Time.Unix 100 0 ∧
      (rangedLogsQuery.WithEndTimeFilter (Time.mk 0 0 (some "UTC"))).Filters.EndTime
        = Time.Unix 200 0) :=
  have h := WithTimeFilter_zero_keeps_range (Time.mk 0 0 (some "UTC")) (by decide)
  ⟨by decide,
    ⟨(h.1 rangedTransactionsQuery).1.trans (by decide),
      (h.1 rangedTransactionsQuery).2.2.2.trans (by decide)⟩,
    ⟨(h.2 rangedLogsQuery).1.trans (by decide),
      (h.2 rangedLogsQuery).2.2.2.trans (by decide)⟩⟩

/-! ## Unconditional setters -/

/-- C7. Every setter other than the page-size and time-range setters stores
its argument in its target field whatever the argument is (zero, the empty
string, the nil or the empty map, any string as operator): the sixteen
setters of the four query kinds. -/
theorem unconditional_setters_overwrite :
    (∀ (q : TransactionsQuery) (v : Nat), (q.WithAfterTxID v).AfterTxID = v) ∧
    (∀ (q : TransactionsQuery) (v : String), (q.WithAccountFilter v).Filters.Account = v) ∧
    (∀ (q : TransactionsQuery) (v : String),
      (q.WithDestinationFilter v).Filters.Destination = v) ∧
    (∀ (q : TransactionsQuery) (v : String),
      (q.WithReferenceFilter v).Filters.Reference = v) ∧
    (∀ (q : TransactionsQuery) (v : String), (q.WithSourceFilter v).Filters.Source = v) ∧
    (∀ (q : TransactionsQuery) (v : Metadata),
      (q.WithMetadataFilter v).Filters.Metadata = v) ∧
    (∀ (q : AccountsQuery) (v : Nat), (q.WithOffset v).Offset = v) ∧
    (∀ (q : AccountsQuery) (v : String), (q.WithAfterAddress v).AfterAddress = v) ∧
    (∀ (q : AccountsQuery) (v : String), (q.WithAddressFilter v).Filters.Address = v) ∧
    (∀ (q : AccountsQuery) (v : String), (q.WithBalanceFilter v).Filters.Balance = v) ∧
    (∀ (q : AccountsQuery) (v : BalanceOperator),
      (q.WithBalanceOperatorFilter v).Filters.BalanceOperator = v) ∧
    (∀ (q : AccountsQuery) (v : Metadata), (q.WithMetadataFilter v).Filters.Metadata = v) ∧
    (∀ (q : BalancesQuery) (v : String), (q.WithAfterAddress v).AfterAddress = v) ∧
    (∀ (q : BalancesQuery) (v : Nat), (q.WithOffset v).Offset = v) ∧
    (∀ (q : BalancesQuery) (v : String),
      (q.WithAddressFilter v).Filters.AddressRegexp = v) ∧
    (∀ (q : LogsQuery) (v : Nat), (q.WithAfterID v).AfterID = v) := by
  refine ⟨?_, ?_, ?_, ?_, ?_, ?_, ?_, ?_, ?_, ?_, ?_, ?_, ?_, ?_, ?_, ?_⟩ <;> intro q v <;> rfl

/-! ## Chains of setter calls -/

/-- One call on a `TransactionsQuery` keeps a positive page size positive. -/
theorem TransactionsQuery_apply_PageSize_pos (s : TransactionsQuery.Setter)
    (q : TransactionsQuery) (hq : 1 ≤ q.PageSize) : 1 ≤ (s.apply q).PageSize := by
  cases s with
  | WithPageSize n =>
    by_cases hn : n = 0
    · simpa [TransactionsQuery.Setter.apply, TransactionsQuery.WithPageSize, hn] using hq
    · simpa [TransactionsQuery.Setter.apply, TransactionsQuery.WithPageSize, hn] using Nat.pos_of_ne_zero hn
  | WithStartTimeFilter t =>
    cases ht : t.IsZero <;>
      simpa [TransactionsQuery.Setter.apply, TransactionsQuery.WithStartTimeFilter, ht] using hq
  | WithEndTimeFilter t =>
    cases ht : t.IsZero <;>
      simpa [TransactionsQuery.Setter.apply, TransactionsQuery.WithEndTimeFilter, ht] using hq
  | _ => exact hq

/-- One call on an `AccountsQuery` keeps a positive page size positive. -/
theorem AccountsQuery_apply_PageSize_pos (s : AccountsQuery.Setter)
    (q : AccountsQuery) (hq : 1 ≤ q.PageSize) : 1 ≤ (s.apply q).PageSize := by
  cases s with
  | WithPageSize n =>
    by_cases hn : n = 0
    · simpa [AccountsQuery.Setter.apply, AccountsQuery.WithPageSize, hn] using hq
    · simpa [AccountsQuery.Setter.apply, AccountsQuery.WithPageSize, hn] using Nat.pos_of_ne_zero hn
  | _ => exact hq

/-- One call on a `LogsQuery` keeps a positive page size positive. -/
theorem LogsQuery_apply_PageSize_pos (s : LogsQuery.Setter)
    (q : LogsQuery) (hq : 1 ≤ q.PageSize) : 1 ≤ (s.apply q).PageSize := by
  cases s with
  | WithPageSize n =>
    by_cases hn : n = 0
    · simpa [LogsQuery.Setter.apply, LogsQuery.WithPageSize, hn] using hq
    · simpa [LogsQuery.Setter.apply, LogsQuery.WithPageSize, hn] using Nat.pos_of_ne_zero hn
  | WithStartTimeFilter t =>
    cases ht : t.IsZero <;>
      simpa [LogsQuery.Setter.apply, LogsQuery.WithStartTimeFilter, ht] using hq
  | WithEndTimeFilter t =>
    cases ht : t.IsZero <;>
      simpa [LogsQuery.Setter.apply, LogsQuery.WithEndTimeFilter, ht] using hq
  | _ => exact hq

/-- A property of queries that the start query has and every call keeps holds
after any chain of calls. -/
theorem foldl_apply_invariant {Q S : Type} (step : Q → S → Q) (P : Q → Prop)
    (hstep : ∀ q s, P q → P (step q s)) (calls : List S) (q : Q) (hq : P q) :
    P (calls.foldl step q) := by
  induction calls generalizing q with
  | nil => exact hq
  | cons s rest ih => exact ih (step q s) (hstep q s hq)

/-- C11. For `TransactionsQuery`, `AccountsQuery` and `LogsQuery`, the query
built from the constructor by any finite chain of `With*` calls, with any
arguments, has page size at least 1. -/
theorem build_PageSize_ge_one :
    (∀ calls : List TransactionsQuery.Setter, 1 ≤ (TransactionsQuery.build calls).PageSize) ∧
    (∀ calls : List AccountsQuery.Setter, 1 ≤ (AccountsQuery.build calls).PageSize) ∧
    (∀ calls : List LogsQuery.Setter, 1 ≤ (LogsQuery.build calls).PageSize) := by
  refine ⟨?_, ?_, ?_⟩ <;> intro calls
  · exact foldl_apply_invariant (fun q s => s.apply q) (fun q => 1 ≤ q.PageSize)
      (fun q s hq => TransactionsQuery_apply_PageSize_pos s q hq) calls NewTransactionsQuery
      (by decide)
  · exact foldl_apply_invariant (fun q s => s.apply q) (fun q => 1 ≤ q.PageSize)
      (fun q s hq => AccountsQuery_apply_PageSize_pos s q hq) calls NewAccountsQuery
      (by decide)
  · exact foldl_apply_invariant (fun q s => s.apply q) (fun q => 1 ≤ q.PageSize)
      (fun q s hq => LogsQuery_apply_PageSize_pos s q hq) calls NewLogsQuery
      (by decide)

/-! ## Frame of the setters -/

/-- C12. Every `With*` call of the four query kinds changes at most the field
it assigns to: every field other than the target of the call has, in the
returned query, the value it had before the call. -/
theorem setters_change_only_target :
    (∀ (s : TransactionsQuery.Setter) (q : TransactionsQuery) (f : TransactionsQuery.Field),
      f ≠ s.target → f.sameAt (s.apply q) q) ∧
    (∀ (s : AccountsQuery.Setter) (q : AccountsQuery) (f : AccountsQuery.Field),
      f ≠ s.target → f.sameAt (s.apply q) q) ∧
    (∀ (s : BalancesQuery.Setter) (q : BalancesQuery) (f : BalancesQuery.Field),
      f ≠ s.target → f.sameAt (s.apply q) q) ∧
    (∀ (s : LogsQuery.Setter) (q : LogsQuery) (f : LogsQuery.Field),
      f ≠ s.target → f.sameAt (s.apply q) q) := by
  refine ⟨?_, ?_, ?_, ?_⟩
  · intro s q f hf
    cases s <;> cases f <;>
      first
      | exact absurd rfl hf
      | rfl
      | (simp only [TransactionsQuery.Field.sameAt, TransactionsQuery.Setter.apply,
          TransactionsQuery.WithPageSize, TransactionsQuery.WithAfterTxID,
          TransactionsQuery.WithStartTimeFilter, TransactionsQuery.WithEndTimeFilter,
          TransactionsQuery.WithAccountFilter, TransactionsQuery.WithDestinationFilter,
          TransactionsQuery.WithReferenceFilter, TransactionsQuery.WithSourceFilter,
          TransactionsQuery.WithMetadataFilter]
         split_ifs <;> rfl)
  · intro s q f hf
    cases s <;> cases f <;>
      first
      | exact absurd rfl hf
      | rfl
      | (simp only [AccountsQuery.Field.sameAt, AccountsQuery.Setter.apply,
          AccountsQuery.WithPageSize, AccountsQuery.WithOffset, AccountsQuery.WithAfterAddress,
          AccountsQuery.WithAddressFilter, AccountsQuery.WithBalanceFilter,
          AccountsQuery.WithBalanceOperatorFilter, AccountsQuery.WithMetadataFilter]
         split_ifs <;> rfl)
  · intro s q f hf
    cases s <;> cases f <;>
      first
      | exact absurd rfl hf
      | rfl
  · intro s q f hf
    cases s <;> cases f <;>
      first
      | exact absurd rfl hf
      | rfl
      | (simp only [LogsQuery.Field.sameAt, LogsQuery.Setter.apply, LogsQuery.WithAfterID,
          LogsQuery.WithPageSize, LogsQuery.WithStartTimeFilter, LogsQuery.WithEndTimeFilter]
         split_ifs <;> rfl)

/-- Witness of C12: `WithStartTimeFilter` with the Unix epoch on the freshly
constructed transactions and logs queries leaves the page size at 15 and the
end time at the zero time, `WithBalanceFilter` leaves the operator empty and
`BalancesQuery.WithPageSize(0)` leaves the offset at 0. -/
theorem setters_change_only_target_witness :
    (NewTransactionsQuery.WithStartTimeFilter (Time.Unix 0 0)).PageSize = 15 ∧
    (NewTransactionsQuery.WithStartTimeFilter (Time.Unix 0 0)).Filters.EndTime = Time.zero ∧
    (NewAccountsQuery.WithBalanceFilter "100").Filters.BalanceOperator
      = BalanceOperator.mk "" ∧
    (NewBalancesQuery.WithPageSize 0).Offset = 0 ∧
    (NewLogsQuery.WithStartTimeFilter (Time.Unix 0 0)).PageSize = 15 :=
  have h := setters_change_only_target
  ⟨h.1 (.WithStartTimeFilter (Time.Unix 0 0)) NewTransactionsQuery .PageSize (by decide),
    h.1 (.WithStartTimeFilter (Time.Unix 0 0)) NewTransactionsQuery .EndTime (by decide),
    h.2.1 (.WithBalanceFilter "100") NewAccountsQuery .BalanceOperator (by decide),
    h.2.2.1 (.WithPageSize 0) NewBalancesQuery .Offset (by decide),
    h.2.2.2 (.WithStartTimeFilter (Time.Unix 0 0)) NewLogsQuery .PageSize (by decide)⟩

/-! ## Freshly constructed queries -/

/-- C13. A freshly constructed `AccountsQuery` carries the empty operator,
which differs from `DefaultBalanceOperator` and is not valid; and every field
other than the page size of each of the four freshly constructed queries is its
zero value. -/
theorem New_queries_zero_fields :
    (NewAccountsQuery.Filters.BalanceOperator = BalanceOperator.mk "" ∧
      NewAccountsQuery.Filters.BalanceOperator ≠ DefaultBalanceOperator ∧
      DefaultBalanceOperator = BalanceOperator.mk "gte" ∧
      NewAccountsQuery.Filters.BalanceOperator.IsValid = false) ∧
    (NewTransactionsQuery.AfterTxID = 0 ∧
      NewTransactionsQuery.Filters.Reference = "" ∧
      NewTransactionsQuery.Filters.Destination = "" ∧
      NewTransactionsQuery.Filters.Source = "" ∧
      NewTransactionsQuery.Filters.Account = "" ∧
      NewTransactionsQuery.Filters.EndTime = Time.mk 0 0 none ∧
      NewTransactionsQuery.Filters.StartTime = Time.mk 0 0 none ∧
      NewTransactionsQuery.Filters.Metadata = none) ∧
    (NewAccountsQuery.Offset = 0 ∧
      NewAccountsQuery.AfterAddress = "" ∧
      NewAccountsQuery.Filters.Address = "" ∧
      NewAccountsQuery.Filters.Balance = "" ∧
      NewAccountsQuery.Filters.Metadata = none) ∧
    (NewBalancesQuery.Offset = 0 ∧
      NewBalancesQuery.AfterAddress = "" ∧
      NewBalancesQuery.Filters.AddressRegexp = "") ∧
    (NewLogsQuery.AfterID = 0 ∧
      NewLogsQuery.Filters.EndTime = Time.mk 0 0 none ∧
      NewLogsQuery.Filters.StartTime = Time.mk 0 0 none) := by
  refine ⟨⟨rfl, by decide, rfl, by decide⟩, ?_, ?_, ?_, ?_⟩ <;> decide

/-! ## Non-zero time-range filters -/

/-- C14. For `TransactionsQuery` and `LogsQuery`, every query `q` and every
timestamp `t` that is not zero, `WithStartTimeFilter t` stores exactly `t` as
start time and `WithEndTimeFilter t` stores exactly `t` as end time. The Unix
epoch is not zero, in whatever location, and is stored like any other instant.
Start and end are stored whatever their order. -/
theorem nonzero_time_filters_are_stored :
    (∀ t : Time, t.IsZero = false →
      (∀ q : TransactionsQuery,
        (q.WithStartTimeFilter t).Filters.StartTime = t ∧
        (q.WithEndTimeFilter t).Filters.EndTime = t) ∧
      (∀ q : LogsQuery,
        (q.WithStartTimeFilter t).Filters.StartTime = t ∧
        (q.WithEndTimeFilter t).Filters.EndTime = t)) ∧
    (∀ loc : Option String,
      (Time.mk unixToInternal 0 loc).IsZero = false ∧
      (∀ q : TransactionsQuery,
        (q.WithStartTimeFilter (Time.mk unixToInternal 0 loc)).Filters.StartTime
          = Time.mk unixToInternal 0 loc ∧
        (q.WithEndTimeFilter (Time.mk unixToInternal 0 loc)).Filters.EndTime
          = Time.mk unixToInternal 0 loc) ∧
      (∀ q : LogsQuery,
        (q.WithStartTimeFilter (Time.mk unixToInternal 0 loc)).Filters.StartTime
          = Time.mk unixToInternal 0 loc ∧
        (q.WithEndTimeFilter (Time.mk unixToInternal 0 loc)).Filters.EndTime
          = Time.mk unixToInternal 0 loc)) ∧
    (∀ start end_ : Time, start.IsZero = false → end_.IsZero = false →
      (∀ q : TransactionsQuery,
        ((q.WithStartTimeFilter start).WithEndTimeFilter end_).Filters.StartTime = start ∧
        ((q.WithStartTimeFilter start).WithEndTimeFilter end_).Filters.EndTime = end_) ∧
      (∀ q : LogsQuery,
        ((q.WithStartTimeFilter start).WithEndTimeFilter end_).Filters.StartTime = start ∧
        ((q.WithStartTimeFilter start).WithEndTimeFilter end_).Filters.EndTime = end_)) := by
  have hset : ∀ t : Time, t.IsZero = false →
      (∀ q : TransactionsQuery,
        (q.WithStartTimeFilter t).Filters.StartTime = t ∧
        (q.WithEndTimeFilter t).Filters.EndTime = t) ∧
      (∀ q : LogsQuery,
        (q.WithStartTimeFilter t).Filters.StartTime = t ∧
        (q.WithEndTimeFilter t).Filters.EndTime = t) := by
    intro t ht
    refine ⟨?_, ?_⟩ <;> intro q
    · simp [TransactionsQuery.WithStartTimeFilter, TransactionsQuery.WithEndTimeFilter, ht]
    · simp [LogsQuery.WithStartTimeFilter, LogsQuery.WithEndTimeFilter, ht]
  have hepoch : ∀ loc : Option String, (Time.mk unixToInternal 0 loc).IsZero = false := by
    intro loc
    simp [Time.IsZero, unixToInternal]
  refine ⟨hset, fun loc => ⟨hepoch loc, hset _ (hepoch loc)⟩, ?_⟩
  intro start end_ hs he
  refine ⟨?_, ?_⟩ <;> intro q
  · simp [TransactionsQuery.WithStartTimeFilter, TransactionsQuery.WithEndTimeFilter, hs, he]
  · simp [LogsQuery.WithStartTimeFilter, LogsQuery.WithEndTimeFilter, hs, he]

/-- Witness of C14: the Unix epoch as end time after `time.Unix(200, 0)` as
start time, a start later than the end, on the freshly constructed queries. -/
theorem nonzero_time_filters_are_stored_witness :
    (Time.Unix 200 0).IsZero = false ∧ (Time.Unix 0 0).IsZero = false ∧
    (((NewTransactionsQuery.WithStartTimeFilter (Time.Unix 200 0)).WithEndTimeFilter
        (Time.Unix 0 0)).Filters.StartTime = Time.Unix 200 0 ∧
      ((NewTransactionsQuery.WithStartTimeFilter (Time.Unix 200 0)).WithEndTimeFilter
        (Time.Unix 0 0)).Filters.EndTime = Time.Unix 0 0) ∧
    (((NewLogsQuery.WithStartTimeFilter (Time.Unix 200 0)).WithEndTimeFilter
        (Time.Unix 0 0)).Filters.StartTime = Time.Unix 200 0 ∧
      ((NewLogsQuery.WithStartTimeFilter (Time.Unix 200 0)).WithEndTimeFilter
        (Time.Unix 0 0)).Filters.EndTime = Time.Unix 0 0) :=
  have h := nonzero_time_filters_are_stored.2.2 (Time.Unix 200 0) (Time.Unix 0 0)
    (by decide) (by decide)
  ⟨by decide, by decide, h.1 NewTransactionsQuery, h.2 NewLogsQuery⟩

/-! ## Commutation of setters on different fields -/

/-- C15. Two `With*` calls of the same query kind that assign to different
fields commute: applying them in either order to any query gives the same
query, whatever their arguments, zero included. -/
theorem setters_on_distinct_fields_commute :
    (∀ (s₁ s₂ : TransactionsQuery.Setter) (q : TransactionsQuery),
      s₁.target ≠ s₂.target → s₂.apply (s₁.apply q) = s₁.apply (s₂.apply q)) ∧
    (∀ (s₁ s₂ : AccountsQuery.Setter) (q : AccountsQuery),
      s₁.target ≠ s₂.target → s₂.apply (s₁.apply q) = s₁.apply (s₂.apply q)) ∧
    (∀ (s₁ s₂ : BalancesQuery.Setter) (q : BalancesQuery),
      s₁.target ≠ s₂.target → s₂.apply (s₁.apply q) = s₁.apply (s₂.apply q)) ∧
    (∀ (s₁ s₂ : LogsQuery.Setter) (q : LogsQuery),
      s₁.target ≠ s₂.target → s₂.apply (s₁.apply q) = s₁.apply (s₂.apply q)) := by
  refine ⟨?_, ?_, ?_, ?_⟩
  · intro s₁ s₂ q h
    cases s₁ <;> cases s₂ <;>
      first
      | exact absurd rfl h
      | rfl
      | (simp only [TransactionsQuery.Setter.apply, TransactionsQuery.WithPageSize,
          TransactionsQuery.WithAfterTxID, TransactionsQuery.WithStartTimeFilter,
          TransactionsQuery.WithEndTimeFilter, TransactionsQuery.WithAccountFilter,
          TransactionsQuery.WithDestinationFilter, TransactionsQuery.WithReferenceFilter,
          TransactionsQuery.WithSourceFilter, TransactionsQuery.WithMetadataFilter]
         split_ifs <;> rfl)
  · intro s₁ s₂ q h
    cases s₁ <;> cases s₂ <;>
      first
      | exact absurd rfl h
      | rfl
      | (simp only [AccountsQuery.Setter.apply, AccountsQuery.WithPageSize,
          AccountsQuery.WithOffset, AccountsQuery.WithAfterAddress,
          AccountsQuery.WithAddressFilter, AccountsQuery.WithBalanceFilter,
          AccountsQuery.WithBalanceOperatorFilter, AccountsQuery.WithMetadataFilter]
         split_ifs <;> rfl)
  · intro s₁ s₂ q h
    cases s₁ <;> cases s₂ <;>
      first
      | exact absurd rfl h
      | rfl
  · intro s₁ s₂ q h
    cases s₁ <;> cases s₂ <;>
      first
      | exact absurd rfl h
      | rfl
      | (simp only [LogsQuery.Setter.apply, LogsQuery.WithAfterID, LogsQuery.WithPageSize,
          LogsQuery.WithStartTimeFilter, LogsQuery.WithEndTimeFilter]
         split_ifs <;> rfl)

/-- Witness of C15: `WithPageSize(0)` and `WithAfterTxID(7)` on a fresh
transactions query, `WithPageSize(0)` and `WithOffset(3)` on a fresh balances
query, in both orders. -/
theorem setters_on_distinct_fields_commute_witness :
    ((NewTransactionsQuery.WithPageSize 0).WithAfterTxID 7
      = (NewTransactionsQuery.WithAfterTxID 7).WithPageSize 0) ∧
    ((NewBalancesQuery.WithPageSize 0).WithOffset 3
      = (NewBalancesQuery.WithOffset 3).WithPageSize 0) :=
  have h := setters_on_distinct_fields_commute
  ⟨h.1 (.WithPageSize 0) (.WithAfterTxID 7) NewTransactionsQuery (by decide),
    h.2.2.1 (.WithPageSize 0) (.WithOffset 3) NewBalancesQuery (by decide)⟩

/-! ## Repeated calls of one setter -/

/-- C16. Every setter is idempotent, and repeated calls follow last write
wins: the same call twice equals the call once; for an unconditional setter
the call with `a` then with `b` equals the call with `b` alone; for a guarded
setter (`WithPageSize` of `TransactionsQuery`, `AccountsQuery`, `LogsQuery`,
`WithStartTimeFilter`, `WithEndTimeFilter`) it equals the call with `b` alone
when `b` is not zero and the call with `a` alone when `b` is zero. -/
theorem setters_idempotent_last_write_wins :
    (∀ (s : TransactionsQuery.Setter) (q : TransactionsQuery), s.apply (s.apply q) = s.apply q) ∧
    (∀ (s : AccountsQuery.Setter) (q : AccountsQuery), s.apply (s.apply q) = s.apply q) ∧
    (∀ (s : BalancesQuery.Setter) (q : BalancesQuery), s.apply (s.apply q) = s.apply q) ∧
    (∀ (s : LogsQuery.Setter) (q : LogsQuery), s.apply (s.apply q) = s.apply q) ∧
    (∀ (q : TransactionsQuery) (a b : Nat), (q.WithAfterTxID a).WithAfterTxID b = q.WithAfterTxID b) ∧
    (∀ (q : TransactionsQuery) (a b : String), (q.WithAccountFilter a).WithAccountFilter b = q.WithAccountFilter b) ∧
    (∀ (q : TransactionsQuery) (a b : String), (q.WithDestinationFilter a).WithDestinationFilter b = q.WithDestinationFilter b) ∧
    (∀ (q : TransactionsQuery) (a b : String), (q.WithReferenceFilter a).WithReferenceFilter b = q.WithReferenceFilter b) ∧
    (∀ (q : TransactionsQuery) (a b : String), (q.WithSourceFilter a).WithSourceFilter b = q.WithSourceFilter b) ∧
    (∀ (q : TransactionsQuery) (a b : Metadata), (q.WithMetadataFilter a).WithMetadataFilter b = q.WithMetadataFilter b) ∧
    (∀ (q : AccountsQuery) (a b : Nat), (q.WithOffset a).WithOffset b = q.WithOffset b) ∧
    (∀ (q : AccountsQuery) (a b : String), (q.WithAfterAddress a).WithAfterAddress b = q.WithAfterAddress b) ∧
    (∀ (q : AccountsQuery) (a b : String), (q.WithAddressFilter a).WithAddressFilter b = q.WithAddressFilter b) ∧
    (∀ (q : AccountsQuery) (a b : String), (q.WithBalanceFilter a).WithBalanceFilter b = q.WithBalanceFilter b) ∧
    (∀ (q : AccountsQuery) (a b : BalanceOperator), (q.WithBalanceOperatorFilter a).WithBalanceOperatorFilter b = q.WithBalanceOperatorFilter b) ∧
    (∀ (q : AccountsQuery) (a b : Metadata), (q.WithMetadataFilter a).WithMetadataFilter b = q.WithMetadataFilter b) ∧
    (∀ (q : BalancesQuery) (a b : String), (q.WithAfterAddress a).WithAfterAddress b = q.WithAfterAddress b) ∧
    (∀ (q : BalancesQuery) (a b : Nat), (q.WithOffset a).WithOffset b = q.WithOffset b) ∧
    (∀ (q : BalancesQuery) (a b : String), (q.WithAddressFilter a).WithAddressFilter b = q.WithAddressFilter b) ∧
    (∀ (q : BalancesQuery) (a b : Nat), (q.WithPageSize a).WithPageSize b = q.WithPageSize b) ∧
    (∀ (q : LogsQuery) (a b : Nat), (q.WithAfterID a).WithAfterID b = q.WithAfterID b) ∧
    (∀ (q : TransactionsQuery) (a b : Nat), b ≠ 0 →
      (q.WithPageSize a).WithPageSize b = q.WithPageSize b) ∧
    (∀ (q : TransactionsQuery) (a : Nat), (q.WithPageSize a).WithPageSize 0 = q.WithPageSize a) ∧
    (∀ (q : AccountsQuery) (a b : Nat), b ≠ 0 →
      (q.WithPageSize a).WithPageSize b = q.WithPageSize b) ∧
    (∀ (q : AccountsQuery) (a : Nat), (q.WithPageSize a).WithPageSize 0 = q.WithPageSize a) ∧
    (∀ (q : LogsQuery) (a b : Nat), b ≠ 0 →
      (q.WithPageSize a).WithPageSize b = q.WithPageSize b) ∧
    (∀ (q : LogsQuery) (a : Nat), (q.WithPageSize a).WithPageSize 0 = q.WithPageSize a) ∧
    (∀ (q : TransactionsQuery) (a b : Time), b.IsZero = false →
      (q.WithStartTimeFilter a).WithStartTimeFilter b = q.WithStartTimeFilter b) ∧
    (∀ (q : TransactionsQuery) (a b : Time), b.IsZero = true →
      (q.WithStartTimeFilter a).WithStartTimeFilter b = q.WithStartTimeFilter a) ∧
    (∀ (q : TransactionsQuery) (a b : Time), b.IsZero = false →
      (q.WithEndTimeFilter a).WithEndTimeFilter b = q.WithEndTimeFilter b) ∧
    (∀ (q : TransactionsQuery) (a b : Time), b.IsZero = true →
      (q.WithEndTimeFilter a).WithEndTimeFilter b = q.WithEndTimeFilter a) ∧
    (∀ (q : LogsQuery) (a b : Time), b.IsZero = false →
      (q.WithStartTimeFilter a).WithStartTimeFilter b = q.WithStartTimeFilter b) ∧
    (∀ (q : LogsQuery) (a b : Time), b.IsZero = true →
      (q.WithStartTimeFilter a).WithStartTimeFilter b = q.WithStartTimeFilter a) ∧
    (∀ (q : LogsQuery) (a b : Time), b.IsZero = false →
      (q.WithEndTimeFilter a).WithEndTimeFilter b = q.WithEndTimeFilter b) ∧
    (∀ (q : LogsQuery) (a b : Time), b.IsZero = true →
      (q.WithEndTimeFilter a).WithEndTimeFilter b = q.WithEndTimeFilter a) := by
  refine ⟨?_, ?_, ?_, ?_, ?_, ?_, ?_, ?_, ?_, ?_, ?_, ?_, ?_, ?_, ?_, ?_, ?_, ?_, ?_, ?_, ?_, ?_, ?_, ?_, ?_, ?_, ?_, ?_, ?_, ?_, ?_, ?_, ?_, ?_, ?_⟩
  · intro s q
    cases s <;>
      first
      | rfl
      | (simp only [TransactionsQuery.Setter.apply, TransactionsQuery.WithPageSize,
          TransactionsQuery.WithStartTimeFilter, TransactionsQuery.WithEndTimeFilter]
         split_ifs <;> rfl)
  · intro s q
    cases s <;>
      first
      | rfl
      | (simp only [AccountsQuery.Setter.apply, AccountsQuery.WithPageSize]
         split_ifs <;> rfl)
  · intro s q
    cases s <;> rfl
  · intro s q
    cases s <;>
      first
      | rfl
      | (simp only [LogsQuery.Setter.apply, LogsQuery.WithPageSize,
          LogsQuery.WithStartTimeFilter, LogsQuery.WithEndTimeFilter]
         split_ifs <;> rfl)
  all_goals first
    | (intro q a b; rfl)
    | (intro q a b hb
       simp only [TransactionsQuery.WithPageSize, AccountsQuery.WithPageSize,
         LogsQuery.WithPageSize, TransactionsQuery.WithStartTimeFilter,
         TransactionsQuery.WithEndTimeFilter, LogsQuery.WithStartTimeFilter,
         LogsQuery.WithEndTimeFilter]
       split_ifs <;> first | rfl | simp_all)
    | (intro q a
       simp only [TransactionsQuery.WithPageSize, AccountsQuery.WithPageSize,
         LogsQuery.WithPageSize]
       split_ifs <;> first | rfl | simp_all)

/-- Witness of C16 on queries whose fields were already set: the page size
setter with 30 then 50 and with 30 then 0, and the start time setter with
`time.Unix(100, 0)` then the zero instant shown in UTC. -/
theorem setters_idempotent_last_write_wins_witness :
    ((NewTransactionsQuery.WithPageSize 30).WithPageSize 50).PageSize = 50 ∧
    ((NewAccountsQuery.WithPageSize 30).WithPageSize 0).PageSize = 30 ∧
    ((NewLogsQuery.WithStartTimeFilter (Time.Unix 100 0)).WithStartTimeFilter
      (Time.mk 0 0 (some "UTC"))).Filters.StartTime = Time.Unix 100 0 :=
  have h := setters_idempotent_last_write_wins
  ⟨(congrArg TransactionsQuery.PageSize
      (h.2.2.2.2.2.2.2.2.2.2.2.2.2.2.2.2.2.2.2.2.2.1 NewTransactionsQuery 30 50
        (by decide))).trans (by decide),
    (congrArg AccountsQuery.PageSize
      (h.2.2.2.2.2.2.2.2.2.2.2.2.2.2.2.2.2.2.2.2.2.2.2.2.1 NewAccountsQuery 30)).trans
      (by decide),
    (congrArg (fun q => q.Filters.StartTime)
      (h.2.2.2.2.2.2.2.2.2.2.2.2.2.2.2.2.2.2.2.2.2.2.2.2.2.2.2.2.2.2.2.2.1 NewLogsQuery
        (Time.Unix 100 0) (Time.mk 0 0 (some "UTC")) (by decide))).trans (by decide)⟩

end Ledger
